import Mathlib

/-!
Verification of the ingestion core (`src/data/raw/ingest_core.py`) of the
`space_reporting` repository.

The Python source is shallowly embedded: text is modelled as `List Char`,
byte buffers as `List Nat` (each entry one byte value), and fallible steps
(uncaught Python exceptions) as `Option`/`Except`.  Each definition below
names the source function or library primitive it embeds.  CPython library
primitives (`str.splitlines`, `str.strip`, `bytes.decode(errors="replace")`,
`csv.reader`, `float`, `re.search` specialised to the one pattern the source
uses, `datetime.strptime` specialised to the format `%Y %b %d`, and the
pyarrow calls) are embedded from their documented behaviour; whitespace,
digit and word-character classes are restricted to the character sets listed
with the class definitions.
-/

set_option maxRecDepth 4000

abbrev Str := List Char

def pstr (s : String) : Str := s.toList

/-- Characters stripped by Python `str.strip()` (the Unicode whitespace set
used by CPython, listed explicitly). -/
def isPySpace (c : Char) : Bool :=
  let n := c.toNat
  (0x09 ≤ n && n ≤ 0x0D) || (0x1C ≤ n && n ≤ 0x1F) || n = 0x20 ||
  n = 0x85 || n = 0xA0 || n = 0x1680 || (0x2000 ≤ n && n ≤ 0x200A) ||
  n = 0x2028 || n = 0x2029 || n = 0x202F || n = 0x205F || n = 0x3000

/-- Line-boundary characters of Python `str.splitlines` (besides the
`"\r\n"` pair, handled separately). -/
def isLineBoundary (c : Char) : Bool :=
  let n := c.toNat
  (0x0A ≤ n && n ≤ 0x0D) || (0x1C ≤ n && n ≤ 0x1E) || n = 0x85 ||
  n = 0x2028 || n = 0x2029

/-- Python `s.strip()`. -/
def pyStrip (s : Str) : Str :=
  ((s.dropWhile isPySpace).reverse.dropWhile isPySpace).reverse

/-- Python `s.lstrip("#")`. -/
def lstripHash (s : Str) : Str := s.dropWhile (fun c => c = '#')

/-- Python `s.startswith("#")`. -/
def startsWithHash : Str → Bool
  | '#' :: _ => true
  | _ => false

/-- Worker for `str.splitlines`: accumulates the current line reversed. -/
def pySplitlinesAux : Str → Str → List Str
  | cur, [] => if cur.isEmpty then [] else [cur.reverse]
  | cur, '\r' :: '\n' :: rest => cur.reverse :: pySplitlinesAux [] rest
  | cur, c :: rest =>
    if isLineBoundary c then cur.reverse :: pySplitlinesAux [] rest
    else pySplitlinesAux (c :: cur) rest

/-- Python `str.splitlines()`: line boundaries end a line, a trailing
boundary produces no final empty line. -/
def pySplitlines (s : Str) : List Str := pySplitlinesAux [] s

-- UTF-8 decoding, following CPython's decoder: a byte sequence that is not
-- a well-formed encoding of a scalar value (bad lead byte, truncated or
-- ill-continued sequence, overlong form, surrogate, or value above
-- 0x10FFFF) is an error; with errors="replace" the maximal valid prefix of
-- the offending sequence is replaced by one U+FFFD and decoding continues.

def replChar : Char := Char.ofNat 0xFFFD

def isContByte (b : Nat) : Bool := 0x80 ≤ b && b < 0xC0

/-- Valid second byte for a three-byte lead (excludes overlongs for 0xE0 and
surrogates for 0xED). -/
def validSecond3 (b1 b2 : Nat) : Bool :=
  if b1 = 0xE0 then 0xA0 ≤ b2 && b2 < 0xC0
  else if b1 = 0xED then 0x80 ≤ b2 && b2 < 0xA0
  else isContByte b2

/-- Valid second byte for a four-byte lead (excludes overlongs for 0xF0 and
values above 0x10FFFF for 0xF4). -/
def validSecond4 (b1 b2 : Nat) : Bool :=
  if b1 = 0xF0 then 0x90 ≤ b2 && b2 < 0xC0
  else if b1 = 0xF4 then 0x80 ≤ b2 && b2 < 0x90
  else isContByte b2

def cp2 (b1 b2 : Nat) : Nat := (b1 - 0xC0) * 0x40 + (b2 - 0x80)

def cp3 (b1 b2 b3 : Nat) : Nat :=
  (b1 - 0xE0) * 0x1000 + (b2 - 0x80) * 0x40 + (b3 - 0x80)

def cp4 (b1 b2 b3 b4 : Nat) : Nat :=
  (b1 - 0xF0) * 0x40000 + (b2 - 0x80) * 0x1000 + (b3 - 0x80) * 0x40 + (b4 - 0x80)

/-- Decode one sequence headed by byte `b`: the decoded character, the
remaining bytes, and whether the sequence was invalid.  On an invalid
sequence the character is U+FFFD and the maximal valid prefix of the
sequence (lead byte plus valid continuation bytes) has been consumed. -/
def utf8Step (b : Nat) (rest : List Nat) : Char × List Nat × Bool :=
  if b < 0x80 then (Char.ofNat b, rest, false)
  else if 0xC2 ≤ b && b < 0xE0 then
    match rest with
    | b2 :: rest2 =>
      if isContByte b2 then (Char.ofNat (cp2 b b2), rest2, false)
      else (replChar, b2 :: rest2, true)
    | [] => (replChar, [], true)
  else if 0xE0 ≤ b && b < 0xF0 then
    match rest with
    | b2 :: rest2 =>
      if validSecond3 b b2 then
        match rest2 with
        | b3 :: rest3 =>
          if isContByte b3 then (Char.ofNat (cp3 b b2 b3), rest3, false)
          else (replChar, b3 :: rest3, true)
        | [] => (replChar, [], true)
      else (replChar, b2 :: rest2, true)
    | [] => (replChar, [], true)
  else if 0xF0 ≤ b && b ≤ 0xF4 then
    match rest with
    | b2 :: rest2 =>
      if validSecond4 b b2 then
        match rest2 with
        | b3 :: rest3 =>
          if isContByte b3 then
            match rest3 with
            | b4 :: rest4 =>
              if isContByte b4 then (Char.ofNat (cp4 b b2 b3 b4), rest4, false)
              else (replChar, b4 :: rest4, true)
            | [] => (replChar, [], true)
          else (replChar, b3 :: rest3, true)
        | [] => (replChar, [], true)
      else (replChar, b2 :: rest2, true)
    | [] => (replChar, [], true)
  else (replChar, rest, true)

/-- One pass over the bytes, producing the `errors="replace"` decoding
together with a flag recording whether any invalid sequence was met (a
strict decode raises exactly when the flag is set).  The first argument is
fuel; every step consumes at least one byte, so fuel equal to the byte
count is always enough. -/
def utf8DecodeAux : Nat → List Nat → Str × Bool
  | 0, _ => ([], false)
  | _ + 1, [] => ([], false)
  | f + 1, b :: rest =>
    let s := utf8Step b rest
    let r := utf8DecodeAux f s.2.1
    (s.1 :: r.1, s.2.2 || r.2)

def utf8DecodeFlag (bs : List Nat) : Str × Bool := utf8DecodeAux bs.length bs

/-- Python `raw.decode("utf-8", errors="replace")` (line 70 of the source). -/
def utf8DecodeReplace (bs : List Nat) : Str := (utf8DecodeFlag bs).1

/-- A strict decode of the same bytes: `none` models `UnicodeDecodeError`. -/
def utf8DecodeStrict (bs : List Nat) : Option Str :=
  if (utf8DecodeFlag bs).2 then none else some (utf8DecodeFlag bs).1

/-- Standard UTF-8 encoding of one scalar value. -/
def utf8EncodeChar (c : Char) : List Nat :=
  let n := c.toNat
  if n < 0x80 then [n]
  else if n < 0x800 then [0xC0 + n / 0x40, 0x80 + n % 0x40]
  else if n < 0x10000 then
    [0xE0 + n / 0x1000, 0x80 + n / 0x40 % 0x40, 0x80 + n % 0x40]
  else
    [0xF0 + n / 0x40000, 0x80 + n / 0x1000 % 0x40, 0x80 + n / 0x40 % 0x40,
     0x80 + n % 0x40]

def utf8Encode : Str → List Nat
  | [] => []
  | c :: rest => utf8EncodeChar c ++ utf8Encode rest

-- `csv.reader(io.StringIO(line), delimiter="\t")` (lines 88 and 95 of the
-- source) parses one newline-free line with the default dialect:
-- quotechar `"`, doublequote on, no escape character, non-strict.  The
-- embedding is the CPython reader state machine; at end of input the
-- pending field is saved (non-strict behaviour, also inside an open quote).

inductive CsvState
  | startField
  | inField
  | inQuoted
  | quoteInQuoted
deriving DecidableEq

def csvParseAux : CsvState → Str → Str → List Str
  | _, cur, [] => [cur.reverse]
  | .startField, cur, c :: rest =>
    if c = '"' then csvParseAux .inQuoted cur rest
    else if c = '\t' then cur.reverse :: csvParseAux .startField [] rest
    else csvParseAux .inField (c :: cur) rest
  | .inField, cur, c :: rest =>
    if c = '\t' then cur.reverse :: csvParseAux .startField [] rest
    else csvParseAux .inField (c :: cur) rest
  | .inQuoted, cur, c :: rest =>
    if c = '"' then csvParseAux .quoteInQuoted cur rest
    else csvParseAux .inQuoted (c :: cur) rest
  | .quoteInQuoted, cur, c :: rest =>
    if c = '"' then csvParseAux .inQuoted (c :: cur) rest
    else if c = '\t' then cur.reverse :: csvParseAux .startField [] rest
    else csvParseAux .inField (c :: cur) rest

/-- The first (only) row `next(csv.reader(io.StringIO(line), delimiter="\t"))`
yields for a newline-free line.  For the empty line the reader yields no row
at all and `next` raises `StopIteration`; that case is encoded as `[]`
(a genuine row always has at least one field). -/
def csvParseLine : Str → List Str
  | [] => []
  | c :: rest => csvParseAux .startField [] (c :: rest)

-- Python `float(val)` (line 115 of the source), restricted to ASCII input:
-- optional surrounding whitespace, optional sign, then a decimal literal
-- with optional fraction and exponent (underscores allowed only between
-- digits), or one of `inf`, `infinity`, `nan` in any letter case.

def toLowerAscii (c : Char) : Char :=
  if 'A' ≤ c ∧ c ≤ 'Z' then Char.ofNat (c.toNat + 32) else c

def isAsciiDigit (c : Char) : Bool := '0' ≤ c && c ≤ '9'

/-- Consume `(_? digit)*` after an initial digit was read. -/
def digitTail : Str → Str
  | '_' :: c :: rest => if isAsciiDigit c then digitTail rest else '_' :: c :: rest
  | c :: rest => if isAsciiDigit c then digitTail rest else c :: rest
  | [] => []

/-- Consume a digit group `digit (_? digit)*`; `none` when there is no
leading digit. -/
def digitGroup : Str → Option Str
  | c :: rest => if isAsciiDigit c then some (digitTail rest) else none
  | [] => none

/-- Consume the mantissa: `digits [. [digits]]` or `. digits`. -/
def floatMantissa (s : Str) : Option Str :=
  match digitGroup s with
  | some rest =>
    match rest with
    | '.' :: rest2 =>
      match digitGroup rest2 with
      | some rest3 => some rest3
      | none => some rest2
    | _ => some rest
  | none =>
    match s with
    | '.' :: rest2 => digitGroup rest2
    | _ => none

/-- Consume an optional exponent `((e|E) [sign] digits)`; a bare `e` with no
valid digits fails the whole parse. -/
def floatExponent : Str → Option Str
  | c :: rest =>
    if c = 'e' ∨ c = 'E' then
      match rest with
      | c2 :: rest2 =>
        if c2 = '+' ∨ c2 = '-' then digitGroup rest2 else digitGroup rest
      | [] => none
    else some (c :: rest)
  | [] => some []

def dropSign : Str → Str
  | c :: rest => if c = '+' ∨ c = '-' then rest else c :: rest
  | [] => []

def isInfNan (s : Str) : Bool :=
  let t := s.map toLowerAscii
  t = pstr "inf" || t = pstr "infinity" || t = pstr "nan"

/-- `float(val)` succeeds. -/
def isPyFloat (s : Str) : Bool :=
  let t := dropSign (pyStrip s)
  isInfNan t ||
    (match floatMantissa t with
     | some rest => floatExponent rest = some []
     | none => false)

-- The sanitizer `clean_tsv_content` (lines 62-131 of the source).  The
-- result is the list `all_rows` (header row first, then the cleaned data
-- rows); `none` models the uncaught `StopIteration` that `next` raises when
-- the header line is empty after stripping (the csv reader of an empty
-- string yields no row).  The final `csv.writer` serialisation is not
-- modelled: the claims are about the sanitized rows.

/-- Line 76: `header_line = lines[0].lstrip("#").strip()`. -/
def sanitizeHeader (l0 : Str) : Str := pyStrip (lstripHash l0)

/-- Lines 88-89 / 95-96: csv-parse one line and strip every field. -/
def stripRow (l : Str) : List Str := (csvParseLine l).map pyStrip

/-- Lines 79-82: the collected `data_lines` (non-comment lines, stripped). -/
def dataLinesOf (rest : List Str) : List Str :=
  (rest.filter (fun l => ! startsWithHash (pyStrip l))).map pyStrip

/-- Lines 93-97: parse each non-empty data line into a stripped row. -/
def sanitizeDataRows (rest : List Str) : List (List Str) :=
  ((dataLinesOf rest).filter (fun l => ! l.isEmpty)).map stripRow

/-- Lines 108-111: the non-dash, non-empty values of column `i`, in row
order (positions a short row lacks contribute nothing). -/
def collectNonDash (i : Nat) (rows : List (List Str)) : List Str :=
  rows.filterMap (fun r =>
    match r.get? i with
    | some v => if v ≠ ['-'] ∧ v ≠ [] then some v else none
    | none => none)

/-- Lines 105-118: the set of numeric columns, as the sorted list of the
column indices `col_idx` for which `non_dash_values` is non-empty and every
member satisfies `float`. -/
def numericColumns (headers : List Str) (dataRows : List (List Str)) : List Nat :=
  (List.range headers.length).filter (fun i =>
    let vs := collectNonDash i dataRows
    (! vs.isEmpty) && vs.all isPyFloat)

/-- Lines 120-124: replace `"-"` by `""` at the positions of numeric
columns; `k` is the index of the first value of the remaining row. -/
def replaceDashes (nc : List Nat) : Nat → List Str → List Str
  | _, [] => []
  | k, v :: vs =>
    (if k ∈ nc ∧ v = ['-'] then [] else v) :: replaceDashes nc (k + 1) vs

/-- `clean_tsv_content`, from the decoded lines onwards. -/
def cleanLines : List Str → Option (List (List Str))
  | [] => some []
  | l0 :: rest =>
    if sanitizeHeader l0 = [] then none
    else
      let headers := stripRow (sanitizeHeader l0)
      let dataRows := sanitizeDataRows rest
      if dataRows.isEmpty then some [headers]
      else
        some (headers ::
          dataRows.map (replaceDashes (numericColumns headers dataRows) 0))

/-- `clean_tsv_content` on the raw bytes: decode with replacement, split
into lines, sanitize. -/
def cleanTsvContent (bs : List Nat) : Option (List (List Str)) :=
  cleanLines (pySplitlines (utf8DecodeReplace bs))

-- `fetch_data_update_date` (lines 24-42 of the source): the date-extraction
-- logic applied to the fetched page text.  The HTTP fetch itself is outside
-- the embedding; the function below receives the text `r.text`.
-- `re.search(r"Data\s+Update\s+(\d{4})\s+(\w{3})\s+(\d{1,2})", text)` is
-- embedded as a matcher specialised to that pattern: the pattern has no
-- IGNORECASE flag, so the two literals are matched case-sensitively; the
-- character classes are disjoint from `\s`, so the greedy `\s+` runs never
-- need backtracking and maximal-munch scanning is equivalent.  `\d` and
-- `\w` are restricted to ASCII (`re` also accepts some non-ASCII digits and
-- word characters; no claim depends on those).

def isWordChar (c : Char) : Bool :=
  isAsciiDigit c || ('a' ≤ c && c ≤ 'z') || ('A' ≤ c && c ≤ 'Z') || c = '_'

/-- Consume a literal. -/
def litDrop : Str → Str → Option Str
  | [], s => some s
  | c :: cs, d :: ds => if d = c then litDrop cs ds else none
  | _ :: _, [] => none

/-- Consume `\s+` (at least one whitespace character, then all that follow;
`\s` is modelled by the same whitespace set as `str.strip`). -/
def wsPlus : Str → Option Str
  | c :: rest => if isPySpace c then some (rest.dropWhile isPySpace) else none
  | [] => none

/-- Consume exactly `n` characters of class `p`, returning them and the
rest. -/
def charsN (p : Char → Bool) : Nat → Str → Option (Str × Str)
  | 0, s => some ([], s)
  | n + 1, c :: rest =>
    if p c then (charsN p n rest).map (fun q => (c :: q.1, q.2)) else none
  | _ + 1, [] => none

/-- Consume `\d{1,2}` greedily (the pattern ends with this group). -/
def day12 : Str → Option Str
  | c :: rest =>
    if isAsciiDigit c then
      match rest with
      | c2 :: _ => if isAsciiDigit c2 then some [c, c2] else some [c]
      | [] => some [c]
    else none
  | [] => none

/-- Attempt the pattern at the current position; on success return the
three captured groups (year, month abbreviation, day). -/
def matchDU (s : Str) : Option (Str × Str × Str) :=
  (litDrop (pstr "Data") s).bind fun s1 =>
  (wsPlus s1).bind fun s2 =>
  (litDrop (pstr "Update") s2).bind fun s3 =>
  (wsPlus s3).bind fun s4 =>
  (charsN isAsciiDigit 4 s4).bind fun q4 =>
  (wsPlus q4.2).bind fun s6 =>
  (charsN isWordChar 3 s6).bind fun q3 =>
  (wsPlus q3.2).bind fun s8 =>
  (day12 s8).map fun ds => (q4.1, q3.1, ds)

/-- `re.search`: try the pattern at each position left to right and return
the groups of the first (leftmost) match. -/
def reSearchDU : Str → Option (Str × Str × Str)
  | [] => none
  | c :: rest =>
    match matchDU (c :: rest) with
    | some g => some g
    | none => reSearchDU rest

-- `datetime.strptime(date_str, "%Y %b %d")` (line 41), specialised to the
-- three captured groups (the source joins them with single spaces).  `%Y`
-- requires exactly four digits; `%b` matches the fixed English three-letter
-- month abbreviations case-insensitively; `%d` accepts the one- and
-- two-digit forms 1-31 (so not "0" or "00"; larger two-digit values leave
-- unconverted data and also raise); the assembled date must be a valid
-- proleptic-Gregorian calendar date with year at least 1.  Any failure
-- raises `ValueError`, modelled as `none`.

structure PyDatetime where
  year : Nat
  month : Nat
  day : Nat
  hour : Nat
  minute : Nat
  second : Nat
  microsecond : Nat
  tzUtc : Bool
deriving DecidableEq

def monthAbbrs : List Str :=
  [pstr "jan", pstr "feb", pstr "mar", pstr "apr", pstr "may", pstr "jun",
   pstr "jul", pstr "aug", pstr "sep", pstr "oct", pstr "nov", pstr "dec"]

def monthIndexAux : List Str → Str → Nat → Option Nat
  | [], _, _ => none
  | a :: as, m, k => if m = a then some k else monthIndexAux as m (k + 1)

/-- The 1-based month of a `%b` token, or `none`. -/
def monthOfAbbr (m : Str) : Option Nat :=
  (monthIndexAux monthAbbrs (m.map toLowerAscii) 0).map (· + 1)

def isLeapYear (y : Nat) : Bool :=
  y % 4 = 0 && (y % 100 ≠ 0 || y % 400 = 0)

def daysInMonth (y m : Nat) : Nat :=
  if m = 2 then (if isLeapYear y then 29 else 28)
  else if m = 4 ∨ m = 6 ∨ m = 9 ∨ m = 11 then 30
  else 31

def natOfDigits (s : Str) : Nat :=
  s.foldl (fun n c => n * 10 + (c.toNat - 48)) 0

def strptimeYbd (ys ms ds : Str) : Option PyDatetime :=
  if ys.length = 4 ∧ ys.all isAsciiDigit then
    match monthOfAbbr ms with
    | none => none
    | some m =>
      if ds ≠ [] ∧ ds.length ≤ 2 ∧ ds.all isAsciiDigit ∧
          1 ≤ natOfDigits ds ∧ natOfDigits ds ≤ 31 then
        if 1 ≤ natOfDigits ys ∧
            natOfDigits ds ≤ daysInMonth (natOfDigits ys) m then
          some (PyDatetime.mk (natOfDigits ys) m (natOfDigits ds) 0 0 0 0 false)
        else none
      else none
  else none

/-- The two ways `fetch_data_update_date` raises: the explicit
`RuntimeError` on a failed search (line 35), and the `ValueError` that
`strptime` raises on a group table it cannot convert (line 41). -/
inductive PyErr
  | runtimeNoDate
  | valueErrorBadDate
deriving DecidableEq

/-- `fetch_data_update_date` applied to the fetched page text: search,
parse, attach UTC (line 42: `dt.replace(tzinfo=timezone.utc)`). -/
def fetchDataUpdateDate (text : Str) : Except PyErr PyDatetime :=
  match reSearchDU text with
  | none => .error .runtimeNoDate
  | some (ys, ms, ds) =>
    match strptimeYbd ys ms ds with
    | none => .error .valueErrorBadDate
    | some dt =>
      .ok (PyDatetime.mk dt.year dt.month dt.day dt.hour dt.minute dt.second
        dt.microsecond true)

-- The pyarrow steps.  `load_arrow_table` (lines 134-141) parses the
-- sanitized rows with `pyarrow.csv.read_csv` (tab delimiter,
-- `strings_can_be_null=True`): the first row names the columns, every data
-- row must have exactly as many fields as the header (otherwise the parse
-- raises, modelled as `none`; an empty input also raises), each column's
-- type is inferred from its values, and an empty string is a null.  Type
-- inference is simplified to integer / float / string / null tags over the
-- raw values (no claim depends on the inferred tag); cell values keep the
-- raw text.  The `csv.writer`/`read_csv` round trip through bytes is not
-- re-modelled: the writer quotes exactly the fields the reader unquotes,
-- and the sanitized fields contain no line boundaries, so the rows survive
-- the round trip unchanged.

inductive CellVal
  | null
  | str (s : Str)
  | ts (t : PyDatetime)
deriving DecidableEq

inductive ColType
  | int64
  | float64
  | stringType
  | nullType
  | timestampUsUtc
deriving DecidableEq

structure ArrowColumn where
  ctype : ColType
  vals : List CellVal
deriving DecidableEq

structure ArrowTable where
  names : List Str
  cols : List ArrowColumn
deriving DecidableEq

/-- An optionally signed run of ASCII digits. -/
def isArrowInt (s : Str) : Bool :=
  let t := dropSign s
  ! t.isEmpty && t.all isAsciiDigit

/-- Simplified float acceptance for inference tagging. -/
def isArrowFloat (s : Str) : Bool :=
  match floatMantissa (dropSign s) with
  | some rest => floatExponent rest = some []
  | none => false

def inferColType (raw : List Str) : ColType :=
  let nonNull := raw.filter (fun v => ! v.isEmpty)
  if nonNull.isEmpty then .nullType
  else if nonNull.all isArrowInt then .int64
  else if nonNull.all isArrowFloat then .float64
  else .stringType

def makeColumn (raw : List Str) : ArrowColumn :=
  ArrowColumn.mk (inferColType raw)
    (raw.map (fun v => if v.isEmpty then CellVal.null else CellVal.str v))

/-- `load_arrow_table` on the sanitized rows. -/
def loadArrowTable : List (List Str) → Option ArrowTable
  | [] => none
  | header :: data =>
    if data.all (fun r => r.length = header.length) then
      some (ArrowTable.mk header
        ((List.range header.length).map
          (fun i => makeColumn (data.map (fun r => r.getD i [])))))
    else none

/-- `table.num_rows`: the common column length (0 for a column-less table). -/
def ArrowTable.numRows (t : ArrowTable) : Nat :=
  match t.cols with
  | [] => 0
  | c :: _ => c.vals.length

/-- `pa.array([updated_at] * n, type=pa.timestamp("us", tz="UTC"))`
(lines 148-151). -/
def paTimestampArray (d : PyDatetime) (n : Nat) : ArrowColumn :=
  ArrowColumn.mk .timestampUsUtc (List.replicate n (CellVal.ts d))

/-- `table.append_column(name, arr)`: the new column goes last. -/
def ArrowTable.appendColumn (t : ArrowTable) (name : Str) (c : ArrowColumn) :
    ArrowTable :=
  ArrowTable.mk (t.names ++ [name]) (t.cols ++ [c])

/-- `add_data_update_column` (lines 144-153). -/
def addDataUpdateColumn (t : ArrowTable) (d : PyDatetime) : ArrowTable :=
  t.appendColumn (pstr "data_update_date") (paTimestampArray d t.numRows)

/-- The non-first lines the sanitizer turns into rows: neither comments nor
blank after trimming. -/
def keptLines (rest : List Str) : List Str :=
  rest.filter (fun l =>
    (! startsWithHash (pyStrip l)) && (! (pyStrip l).isEmpty))

def exceptDecEq {ε α : Type} [DecidableEq ε] [DecidableEq α] :
    DecidableEq (Except ε α) := fun x y =>
  match x, y with
  | .error a, .error b =>
    if h : a = b then .isTrue (by rw [h])
    else .isFalse (fun hx => h (Except.error.inj hx))
  | .ok a, .ok b =>
    if h : a = b then .isTrue (by rw [h])
    else .isFalse (fun hx => h (Except.ok.inj hx))
  | .error _, .ok _ => .isFalse (fun hx => Except.noConfusion hx)
  | .ok _, .error _ => .isFalse (fun hx => Except.noConfusion hx)

instance {ε α : Type} [DecidableEq ε] [DecidableEq α] :
    DecidableEq (Except ε α) := exceptDecEq

-- Concrete fixtures used by the witness theorems below.

def wDate : PyDatetime := PyDatetime.mk 2026 1 2 0 0 0 0 true

def wBytesRect : List Nat := utf8Encode (pstr "a\tb\n1\t2\n3\t4")

def wRowsRect : List (List Str) :=
  [[pstr "a", pstr "b"], [pstr "1", pstr "2"], [pstr "3", pstr "4"]]

def wTableRect : ArrowTable :=
  (loadArrowTable wRowsRect).getD (ArrowTable.mk [] [])

def wBytesBlank : List Nat := utf8Encode (pstr "h\n\n  \nx\n# c")

def wBytesC2 : List Nat := utf8Encode (pstr "#a\tb\n#skip\nx\ty")

def wBytesC9 : List Nat := utf8Encode (pstr "a\tb\tc\n1\nx\t-")

def wBytesC1 : List Nat :=
  utf8Encode (pstr "h1\th2\n12\teast\n-\t-\n7.5\twest")

def wRowsC1 : List (List Str) :=
  [[pstr "h1", pstr "h2"], [pstr "12", pstr "east"], [[], pstr "-"],
   [pstr "7.5", pstr "west"]]

-- Structural lemmas about the embedded definitions.

theorem replaceDashes_length (nc : List Nat) (k : Nat) (r : List Str) :
    (replaceDashes nc k r).length = r.length := by
  induction r generalizing k with
  | nil => rfl
  | cons v vs ih => simp [replaceDashes, ih]

theorem replaceDashes_getElem? (nc : List Nat) (k : Nat) (r : List Str)
    (i : Nat) :
    (replaceDashes nc k r)[i]? =
      (r[i]?).map (fun v => if (k + i) ∈ nc ∧ v = ['-'] then [] else v) := by
  induction r generalizing k i with
  | nil => simp [replaceDashes]
  | cons v vs ih =>
    cases i with
    | zero => simp [replaceDashes]
    | succ j =>
      have harith : k + 1 + j = k + (j + 1) := by omega
      simpa [replaceDashes, harith] using ih (k + 1) j

/-- The shape of a successful sanitizer run on a non-empty document: the
header row, then one cleaned row per retained data line (when there are no
data rows the numeric pass is skipped, but mapping over the empty list
makes the two branches agree). -/
theorem cleanLines_cons (l0 : Str) (rest : List Str) :
    cleanLines (l0 :: rest) =
      if sanitizeHeader l0 = [] then none
      else
        some (stripRow (sanitizeHeader l0) ::
          (sanitizeDataRows rest).map
            (replaceDashes
              (numericColumns (stripRow (sanitizeHeader l0))
                (sanitizeDataRows rest)) 0)) := by
  by_cases h : sanitizeHeader l0 = []
  · simp [cleanLines, h]
  · by_cases h2 : (sanitizeDataRows rest).isEmpty
    · have h3 : sanitizeDataRows rest = [] := by
        simpa using h2
      simp [cleanLines, h, h2, h3]
    · simp [cleanLines, h, h2]

theorem cleanTsvContent_eq (bs : List Nat) :
    cleanTsvContent bs = cleanLines (pySplitlines (utf8DecodeReplace bs)) := rfl

/-- The sanitizer fails exactly when the document is non-empty and its
first line is empty after stripping leading markers and whitespace. -/
theorem cleanTsvContent_none_iff (bs : List Nat) :
    cleanTsvContent bs = none ↔
      ∃ l0 rest, pySplitlines (utf8DecodeReplace bs) = l0 :: rest ∧
        sanitizeHeader l0 = [] := by
  rw [cleanTsvContent_eq]
  cases hl : pySplitlines (utf8DecodeReplace bs) with
  | nil => simp [cleanLines]
  | cons l0 rest =>
    rw [cleanLines_cons]
    by_cases h : sanitizeHeader l0 = [] <;> simp [h]

/-- Every successful sanitizer output is either the empty document (empty
input) or a header row followed by the dash-normalized data rows. -/
theorem cleanTsvContent_some_shape (bs : List Nat) (rows : List (List Str))
    (h : cleanTsvContent bs = some rows) :
    rows = [] ∨
      ∃ l0 rest, pySplitlines (utf8DecodeReplace bs) = l0 :: rest ∧
        sanitizeHeader l0 ≠ [] ∧
        rows = stripRow (sanitizeHeader l0) ::
          (sanitizeDataRows rest).map
            (replaceDashes
              (numericColumns (stripRow (sanitizeHeader l0))
                (sanitizeDataRows rest)) 0) := by
  rw [cleanTsvContent_eq] at h
  cases hl : pySplitlines (utf8DecodeReplace bs) with
  | nil =>
    rw [hl] at h
    simp [cleanLines] at h
    exact Or.inl h
  | cons l0 rest =>
    rw [hl, cleanLines_cons] at h
    by_cases hh : sanitizeHeader l0 = []
    · simp [hh] at h
    · refine Or.inr ⟨l0, rest, rfl, hh, ?_⟩
      simp [hh] at h
      exact h.symm

theorem csvParseAux_ne_nil (s : Str) (st : CsvState) (cur : Str) :
    csvParseAux st cur s ≠ [] := by
  induction s generalizing st cur with
  | nil => cases st <;> simp [csvParseAux]
  | cons c rest ih =>
    cases st <;> simp only [csvParseAux] <;> split <;> try split
    all_goals first
      | exact ih _ _
      | simp

theorem stripRow_ne_nil (l : Str) (h : l ≠ []) : stripRow l ≠ [] := by
  cases l with
  | nil => exact absurd rfl h
  | cons c rest =>
    simp only [stripRow, csvParseLine, ne_eq, List.map_eq_nil_iff]
    exact csvParseAux_ne_nil _ _ _

theorem makeColumn_length (raw : List Str) :
    (makeColumn raw).vals.length = raw.length := by
  simp [makeColumn]

theorem loadArrowTable_cols (r0 : List Str) (data : List (List Str))
    (t : ArrowTable) (h : loadArrowTable (r0 :: data) = some t) :
    t.cols = (List.range r0.length).map
      (fun i => makeColumn (data.map (fun r => r.getD i []))) := by
  simp only [loadArrowTable] at h
  split at h
  · exact (Option.some.injEq _ _ ▸ h.symm) ▸ rfl
  · exact absurd h (by simp)

theorem numRows_append_timestamp (t : ArrowTable) (d : PyDatetime) :
    (addDataUpdateColumn t d).numRows = t.numRows := by
  cases hc : t.cols with
  | nil =>
    simp [addDataUpdateColumn, ArrowTable.appendColumn, ArrowTable.numRows,
      paTimestampArray, hc]
  | cons c0 cs =>
    simp [addDataUpdateColumn, ArrowTable.appendColumn, ArrowTable.numRows, hc]

/-- C5: the provenance annotator appends exactly one `data_update_date`
column in last position, filled with the given UTC microsecond timestamp
once per row (also length 0 for a rowless table), and leaves the
pre-existing column names, columns (types and values) and the row count
unchanged. -/
theorem provenance_annotator_frame (t : ArrowTable) (d : PyDatetime) :
    (addDataUpdateColumn t d).names = t.names ++ [pstr "data_update_date"] ∧
    (addDataUpdateColumn t d).numRows = t.numRows ∧
    (addDataUpdateColumn t d).cols.length = t.cols.length + 1 ∧
    ∃ c, (addDataUpdateColumn t d).cols = t.cols ++ [c] ∧
      c.ctype = ColType.timestampUsUtc ∧
      c.vals.length = t.numRows ∧
      (∀ v ∈ c.vals, v = CellVal.ts d) ∧
      (t.numRows = 0 → c.vals = []) := by
  refine ⟨rfl, numRows_append_timestamp t d, by
    simp [addDataUpdateColumn, ArrowTable.appendColumn],
    paTimestampArray d t.numRows, rfl, rfl, by simp [paTimestampArray], ?_, ?_⟩
  · intro v hv
    exact (List.eq_of_mem_replicate hv)
  · intro h0
    simp [paTimestampArray, h0]

/-- C6: annotating twice is re-annotating the once-annotated table — it
appends a second provenance column, giving exactly one more column than a
single application, so the annotator is not idempotent. -/
theorem provenance_annotator_not_idempotent (t : ArrowTable) (d : PyDatetime) :
    addDataUpdateColumn (addDataUpdateColumn t d) d =
      ArrowTable.appendColumn (addDataUpdateColumn t d) (pstr "data_update_date")
        (paTimestampArray d (addDataUpdateColumn t d).numRows) ∧
    (addDataUpdateColumn (addDataUpdateColumn t d) d).cols.length =
      (addDataUpdateColumn t d).cols.length + 1 ∧
    addDataUpdateColumn (addDataUpdateColumn t d) d ≠ addDataUpdateColumn t d := by
  refine ⟨rfl, by simp [addDataUpdateColumn, ArrowTable.appendColumn], ?_⟩
  intro h
  have hlen := congrArg (fun x => x.cols.length) h
  simp [addDataUpdateColumn, ArrowTable.appendColumn] at hlen

/-- C7: for every input document, every column of the table built from the
sanitized rows has as many values as the document has sanitized data rows
(rectangularity), and appending the provenance column preserves this
equal-length invariant across all columns. -/
theorem table_rectangularity (bs : List Nat) (rows : List (List Str))
    (t : ArrowTable) (d : PyDatetime)
    (hclean : cleanTsvContent bs = some rows)
    (hload : loadArrowTable rows = some t) :
    (∀ c ∈ t.cols, c.vals.length = rows.length - 1) ∧
    (∀ c ∈ (addDataUpdateColumn t d).cols, c.vals.length = rows.length - 1) := by
  rcases cleanTsvContent_some_shape bs rows hclean with hnil | ⟨l0, rest, _, hh, hrows⟩
  · rw [hnil] at hload
    exact absurd hload (by simp [loadArrowTable])
  · rcases hrows with rfl
    have hcols := loadArrowTable_cols _ _ _ hload
    have hbase : ∀ c ∈ t.cols, c.vals.length =
        ((sanitizeDataRows rest).map
          (replaceDashes
            (numericColumns (stripRow (sanitizeHeader l0))
              (sanitizeDataRows rest)) 0)).length := by
      intro c hc
      rw [hcols] at hc
      rcases List.mem_map.mp hc with ⟨i, _, rfl⟩
      simp [makeColumn_length]
    have hlen : ∀ c ∈ t.cols, c.vals.length =
        (stripRow (sanitizeHeader l0) ::
          (sanitizeDataRows rest).map
            (replaceDashes
              (numericColumns (stripRow (sanitizeHeader l0))
                (sanitizeDataRows rest)) 0)).length - 1 := by
      intro c hc
      simpa using hbase c hc
    refine ⟨hlen, ?_⟩
    intro c hc
    have hmem : c ∈ t.cols ++ [paTimestampArray d t.numRows] := hc
    rcases List.mem_append.mp hmem with hin | hlast
    · exact hlen c hin
    · have hc0 : t.cols ≠ [] := by
        rw [hcols]
        have : stripRow (sanitizeHeader l0) ≠ [] := stripRow_ne_nil _ hh
        simp only [ne_eq, List.map_eq_nil_iff, List.range_eq_nil]
        intro hlen0
        exact this (List.length_eq_zero.mp hlen0)
      rcases hc1 : t.cols with _ | ⟨c0, cs⟩
      · exact absurd hc1 hc0
      · have hnum : t.numRows = c0.vals.length := by
          simp [ArrowTable.numRows, hc1]
        have hcell : c = paTimestampArray d t.numRows := by
          simpa using hlast
        rw [hcell]
        have : c0 ∈ t.cols := by rw [hc1]; exact List.mem_cons_self _ _
        have h0 := hlen c0 this
        simp [paTimestampArray, hnum, h0]

/-- C7 witness at a concrete two-column, two-row document. -/
theorem table_rectangularity_witness :
    cleanTsvContent wBytesRect = some wRowsRect ∧
    loadArrowTable wRowsRect = some wTableRect ∧
    ((∀ c ∈ wTableRect.cols, c.vals.length = wRowsRect.length - 1) ∧
     (∀ c ∈ (addDataUpdateColumn wTableRect wDate).cols,
        c.vals.length = wRowsRect.length - 1)) :=
  ⟨by decide, by decide,
    table_rectangularity wBytesRect wRowsRect wTableRect wDate (by decide)
      (by decide)⟩

theorem utf8Step_cases (b : Nat) (rest : List Nat) :
    (utf8Step b rest).2.2 = false ∨ (utf8Step b rest).1 = replChar := by
  unfold utf8Step
  repeat' split
  all_goals simp

theorem utf8DecodeAux_flag_mem (fuel : Nat) (bs : List Nat)
    (h : (utf8DecodeAux fuel bs).2 = true) :
    replChar ∈ (utf8DecodeAux fuel bs).1 := by
  induction fuel generalizing bs with
  | zero => simp [utf8DecodeAux] at h
  | succ f ih =>
    cases bs with
    | nil => simp [utf8DecodeAux] at h
    | cons b rest =>
      simp only [utf8DecodeAux] at h ⊢
      rcases utf8Step_cases b rest with hf | hr
      · rw [hf] at h
        simp only [Bool.false_or] at h
        exact List.mem_cons_of_mem _ (ih _ h)
      · rw [hr]
        exact List.mem_cons_self _ _

/-- C8 (amended): decoding never raises — an input on which a strict decode
fails decodes with the substitution marker U+FFFD in the output, and the
sanitizer runs on the decoded text; the sanitizer fails to produce a
document exactly when the decoded document is non-empty with a first line
that is empty after stripping, a condition independent of decoding
errors. -/
theorem decode_replace_never_raises (bs : List Nat) :
    (utf8DecodeStrict bs = none → replChar ∈ utf8DecodeReplace bs) ∧
    (cleanTsvContent bs = none ↔
      ∃ l0 rest, pySplitlines (utf8DecodeReplace bs) = l0 :: rest ∧
        sanitizeHeader l0 = []) := by
  constructor
  · intro h
    have hf : (utf8DecodeFlag bs).2 = true := by
      by_contra hf
      simp [utf8DecodeStrict, hf] at h
    exact utf8DecodeAux_flag_mem _ _ hf
  · exact cleanTsvContent_none_iff bs

theorem decode_replace_never_raises_witness :
    utf8DecodeStrict [0xFF] = none ∧ replChar ∈ utf8DecodeReplace [0xFF] :=
  ⟨by decide, (decode_replace_never_raises [0xFF]).1 (by decide)⟩

/-- C8 counterexample: the byte sequence of `"#\n"` followed by the invalid
byte 0xFF decodes without raising, but sanitization does not produce a
document — the sanitizer raises on the comment-only first line, against
the claim that it always continues to a SanitizedDocument. -/
theorem decode_claim_counterexample :
    utf8DecodeStrict [0x23, 0x0A, 0xFF] = none ∧
    cleanTsvContent [0x23, 0x0A, 0xFF] = none := by decide

theorem sanitizeDataRows_length (rest : List Str) :
    (sanitizeDataRows rest).length =
      (rest.filter (fun l =>
        (! startsWithHash (pyStrip l)) && (! (pyStrip l).isEmpty))).length := by
  induction rest with
  | nil => rfl
  | cons l ls ih =>
    simp only [sanitizeDataRows, dataLinesOf] at ih ⊢
    by_cases h1 : startsWithHash (pyStrip l)
    · simp [List.filter_cons, h1, ih]
    · by_cases h2 : (pyStrip l).isEmpty
      · simp [List.filter_cons, h1, h2, ih]
      · simp [List.filter_cons, h1, h2, ih]

/-- C10: a non-first line that is blank after trimming contributes no row —
the sanitized row count is one (the header) plus the number of non-comment,
non-blank lines after the first — and whether the sanitizer fails depends
only on the first line, never on blank lines. -/
theorem blank_lines_dropped (bs : List Nat) :
    (∀ rows l0 rest, cleanTsvContent bs = some rows →
       pySplitlines (utf8DecodeReplace bs) = l0 :: rest →
       rows.length = 1 + (rest.filter (fun l =>
         (! startsWithHash (pyStrip l)) && (! (pyStrip l).isEmpty))).length) ∧
    (cleanTsvContent bs = none ↔
       ∃ l0 rest, pySplitlines (utf8DecodeReplace bs) = l0 :: rest ∧
         sanitizeHeader l0 = []) := by
  refine ⟨?_, cleanTsvContent_none_iff bs⟩
  intro rows l0 rest h hl
  rw [cleanTsvContent_eq, hl, cleanLines_cons] at h
  by_cases hh : sanitizeHeader l0 = []
  · simp [hh] at h
  · simp only [hh, if_neg, ite_false] at h
    have hrows := Option.some.inj h
    rw [← hrows]
    simp only [List.length_cons, List.length_map, sanitizeDataRows_length rest]
    omega

/-- C10 witness at a document with one blank, one whitespace-only and one
comment line among the data lines. -/
theorem blank_lines_dropped_witness :
    cleanTsvContent wBytesBlank = some [[pstr "h"], [pstr "x"]] ∧
    pySplitlines (utf8DecodeReplace wBytesBlank) =
      [pstr "h", [], pstr "  ", pstr "x", pstr "# c"] ∧
    ([[pstr "h"], [pstr "x"]] : List (List Str)).length =
      1 + (([[], pstr "  ", pstr "x", pstr "# c"] : List Str).filter (fun l =>
        (! startsWithHash (pyStrip l)) && (! (pyStrip l).isEmpty))).length :=
  ⟨by decide, by decide,
    (blank_lines_dropped wBytesBlank).1 [[pstr "h"], [pstr "x"]] (pstr "h")
      [[], pstr "  ", pstr "x", pstr "# c"] (by decide) (by decide)⟩

theorem forall2_of_map {α β : Type} (l : List α) (f : α → β)
    (P : α → β → Prop) (h : ∀ x ∈ l, P x (f x)) :
    List.Forall₂ P l (l.map f) := by
  induction l with
  | nil => exact List.Forall₂.nil
  | cons a as ih =>
    exact List.Forall₂.cons (h a (by simp))
      (ih fun x hx => h x (by simp [hx]))

theorem sanitizeDataRows_eq_map (rest : List Str) :
    sanitizeDataRows rest =
      (keptLines rest).map (fun l => stripRow (pyStrip l)) := by
  induction rest with
  | nil => rfl
  | cons l ls ih =>
    simp only [sanitizeDataRows, dataLinesOf, keptLines] at ih ⊢
    by_cases h1 : startsWithHash (pyStrip l)
    · simp [List.filter_cons, h1, ih]
    · by_cases h2 : (pyStrip l).isEmpty
      · simp [List.filter_cons, h1, h2, ih]
      · simp [List.filter_cons, h1, h2, ih]

/-- C2 counterexample: on the non-empty document `"#\n1\t2"` the claim
requires the first line to become the header, but the sanitizer fails (the
empty stripped header line makes the csv reader yield no row and `next`
raise `StopIteration`). -/
theorem header_empty_crash_counterexample :
    cleanTsvContent (utf8Encode (pstr "#\n1\t2")) = none := by decide

/-- C2 (amended): when the stripped first line is non-empty the sanitizer
takes it as the header — even when it looks like a comment — drops every
subsequent comment or blank line, and turns each remaining line into one
trimmed data row with non-dash values kept verbatim; when the first line
strips to nothing the sanitizer fails instead. -/
theorem header_and_comment_handling (bs : List Nat) (l0 : Str)
    (rest : List Str)
    (hl : pySplitlines (utf8DecodeReplace bs) = l0 :: rest) :
    (sanitizeHeader l0 = [] → cleanTsvContent bs = none) ∧
    (sanitizeHeader l0 ≠ [] → ∃ rows, cleanTsvContent bs = some rows ∧
      rows.head? = some (stripRow (sanitizeHeader l0)) ∧
      List.Forall₂ (fun (l : Str) (out : List Str) =>
          out.length = (stripRow (pyStrip l)).length ∧
          ∀ (i : Nat) (v : Str), (stripRow (pyStrip l))[i]? = some v → v ≠ ['-'] →
            out[i]? = some v)
        (keptLines rest) rows.tail) := by
  constructor
  · intro hh
    exact (cleanTsvContent_none_iff bs).mpr ⟨l0, rest, hl, hh⟩
  · intro hh
    rw [cleanTsvContent_eq, hl, cleanLines_cons]
    refine ⟨stripRow (sanitizeHeader l0) ::
      (sanitizeDataRows rest).map
        (replaceDashes
          (numericColumns (stripRow (sanitizeHeader l0))
            (sanitizeDataRows rest)) 0), by simp [hh], rfl, ?_⟩
    rw [sanitizeDataRows_eq_map, List.map_map]
    refine forall2_of_map _ _ _ ?_
    intro l _
    constructor
    · exact replaceDashes_length _ _ _
    · intro i v hv hvne
      rw [Function.comp_apply, replaceDashes_getElem?, hv]
      simp [hvne]

/-- C2 witness: a comment-looking first line becomes the header; the
comment line after it is dropped and the remaining line is the one data
row. -/
theorem header_and_comment_handling_witness :
    ∃ rows, cleanTsvContent wBytesC2 = some rows ∧
      rows.head? = some (stripRow (sanitizeHeader (pstr "#a\tb"))) ∧
      List.Forall₂ (fun (l : Str) (out : List Str) =>
          out.length = (stripRow (pyStrip l)).length ∧
          ∀ (i : Nat) (v : Str), (stripRow (pyStrip l))[i]? = some v → v ≠ ['-'] →
            out[i]? = some v)
        (keptLines [pstr "#skip", pstr "x\ty"]) rows.tail :=
  (header_and_comment_handling wBytesC2 (pstr "#a\tb")
    [pstr "#skip", pstr "x\ty"] (by decide)).2 (by decide)

/-- C9: a data row with fewer fields than the header is neither padded nor
rejected: every kept line yields exactly one output row of the same field
count as its parse, and each present position keeps its value except for
the dash-sentinel normalization. -/
theorem short_rows_accepted (bs : List Nat) (rows : List (List Str))
    (l0 : Str) (rest : List Str)
    (hl : pySplitlines (utf8DecodeReplace bs) = l0 :: rest)
    (h : cleanTsvContent bs = some rows) :
    List.Forall₂ (fun (l : Str) (out : List Str) =>
        out.length = (stripRow (pyStrip l)).length ∧
        ∀ (i : Nat) (v : Str), (stripRow (pyStrip l))[i]? = some v →
          ∃ w, out[i]? = some w ∧ (w = v ∨ (v = ['-'] ∧ w = [])))
      (keptLines rest) rows.tail := by
  rw [cleanTsvContent_eq, hl, cleanLines_cons] at h
  by_cases hh : sanitizeHeader l0 = []
  · simp [hh] at h
  · simp only [hh, if_neg, ite_false] at h
    rcases Option.some.inj h with rfl
    simp only [List.tail_cons]
    rw [sanitizeDataRows_eq_map, List.map_map]
    refine forall2_of_map _ _ _ ?_
    intro l _
    constructor
    · exact replaceDashes_length _ _ _
    · intro i v hv
      rw [Function.comp_apply, replaceDashes_getElem?, hv]
      simp only [Option.map_some']
      refine ⟨_, rfl, ?_⟩
      split
      next hcnd => exact Or.inr ⟨hcnd.2, rfl⟩
      next => exact Or.inl rfl

/-- C9 witness: the second row has one field, the third two, against a
three-field header; both survive with their original field counts, and the
dash in the third row is retained (its column is not numeric). -/
theorem short_rows_accepted_witness :
    List.Forall₂ (fun (l : Str) (out : List Str) =>
        out.length = (stripRow (pyStrip l)).length ∧
        ∀ (i : Nat) (v : Str), (stripRow (pyStrip l))[i]? = some v →
          ∃ w, out[i]? = some w ∧ (w = v ∨ (v = ['-'] ∧ w = [])))
      (keptLines [pstr "1", pstr "x\t-"])
      ([[pstr "a", pstr "b", pstr "c"], [pstr "1"],
        [pstr "x", pstr "-"]] : List (List Str)).tail :=
  short_rows_accepted wBytesC9
    [[pstr "a", pstr "b", pstr "c"], [pstr "1"], [pstr "x", pstr "-"]]
    (pstr "a\tb\tc") [pstr "1", pstr "x\t-"] (by decide) (by decide)

/-- C1: with at least one data row, a column is marked numeric exactly when
its non-dash, non-empty data values form a non-empty set all of whose
members parse as floats; dashes in marked columns become empty strings,
dashes elsewhere (and all other values) are kept verbatim. -/
theorem numeric_sentinel_normalization (bs : List Nat)
    (rows : List (List Str)) (l0 : Str) (rest : List Str)
    (hl : pySplitlines (utf8DecodeReplace bs) = l0 :: rest)
    (h : cleanTsvContent bs = some rows)
    (hdata : 2 ≤ rows.length) :
    (∀ i, i ∈ numericColumns (stripRow (sanitizeHeader l0))
        (sanitizeDataRows rest) ↔
      (i < (stripRow (sanitizeHeader l0)).length ∧
       collectNonDash i (sanitizeDataRows rest) ≠ [] ∧
       ∀ v ∈ collectNonDash i (sanitizeDataRows rest), isPyFloat v = true)) ∧
    rows.head? = some (stripRow (sanitizeHeader l0)) ∧
    List.Forall₂ (fun (pre : List Str) (out : List Str) => ∀ (i : Nat) (v : Str), pre[i]? = some v →
        out[i]? = some (if i ∈ numericColumns (stripRow (sanitizeHeader l0))
            (sanitizeDataRows rest) ∧ v = ['-'] then [] else v))
      (sanitizeDataRows rest) rows.tail := by
  rw [cleanTsvContent_eq, hl, cleanLines_cons] at h
  by_cases hh : sanitizeHeader l0 = []
  · simp [hh] at h
  · simp only [hh, if_neg, ite_false] at h
    rcases Option.some.inj h with rfl
    refine ⟨?_, rfl, ?_⟩
    · intro i
      simp [numericColumns, List.mem_filter, List.mem_range, and_assoc,
        List.all_eq_true, List.isEmpty_iff]
    · simp only [List.tail_cons]
      refine forall2_of_map _ _ _ ?_
      intro r _
      intro i v hv
      rw [replaceDashes_getElem?, hv]
      simp

/-- C1 witness at the spec's own example: the `12 / - / 7.5` column is
numeric and its dash becomes empty; the `east / - / west` column is not and
keeps its dash. -/
theorem numeric_sentinel_normalization_witness :
    (∀ i, i ∈ numericColumns (stripRow (sanitizeHeader (pstr "h1\th2")))
        (sanitizeDataRows [pstr "12\teast", pstr "-\t-", pstr "7.5\twest"]) ↔
      (i < (stripRow (sanitizeHeader (pstr "h1\th2"))).length ∧
       collectNonDash i
         (sanitizeDataRows [pstr "12\teast", pstr "-\t-", pstr "7.5\twest"]) ≠ [] ∧
       ∀ v ∈ collectNonDash i
         (sanitizeDataRows [pstr "12\teast", pstr "-\t-", pstr "7.5\twest"]),
         isPyFloat v = true)) ∧
    wRowsC1.head? = some (stripRow (sanitizeHeader (pstr "h1\th2"))) ∧
    List.Forall₂ (fun (pre : List Str) (out : List Str) => ∀ (i : Nat) (v : Str), pre[i]? = some v →
        out[i]? = some (if i ∈ numericColumns
            (stripRow (sanitizeHeader (pstr "h1\th2")))
            (sanitizeDataRows [pstr "12\teast", pstr "-\t-", pstr "7.5\twest"]) ∧
            v = ['-'] then [] else v))
      (sanitizeDataRows [pstr "12\teast", pstr "-\t-", pstr "7.5\twest"])
      wRowsC1.tail :=
  numeric_sentinel_normalization wBytesC1 wRowsC1 (pstr "h1\th2")
    [pstr "12\teast", pstr "-\t-", pstr "7.5\twest"] (by decide) (by decide)
    (by decide)

theorem strptimeYbd_shape (ys ms ds : Str) (dt : PyDatetime)
    (h : strptimeYbd ys ms ds = some dt) :
    dt = PyDatetime.mk dt.year dt.month dt.day 0 0 0 0 false := by
  unfold strptimeYbd at h
  repeat' split at h
  all_goals first
    | exact Option.noConfusion h
    | (rcases Option.some.inj h with rfl; rfl)

/-- C3 counterexample: the text `data update 2026 Jan 2` contains the label
and date up to letter case, but the unflagged pattern is case-sensitive, so
the resolver raises instead of resolving 2026-01-02T00:00:00Z. -/
theorem resolver_case_sensitivity_counterexample :
    fetchDataUpdateDate (pstr "data update 2026 Jan 2") =
      .error PyErr.runtimeNoDate ∧
    fetchDataUpdateDate (pstr "data update 2026 Jan 2") ≠
      .ok (PyDatetime.mk 2026 1 2 0 0 0 0 true) := by decide

/-- C3 (amended): the pattern match is spacing-tolerant but case-sensitive
on the label; whenever the leftmost match's groups parse (valid English
month abbreviation, matched case-insensitively, and a calendar-valid day),
the resolver returns exactly that date at UTC midnight. -/
theorem resolver_match_ok (t ys ms ds : Str) (dt : PyDatetime)
    (h1 : reSearchDU t = some (ys, ms, ds))
    (h2 : strptimeYbd ys ms ds = some dt) :
    fetchDataUpdateDate t =
      .ok (PyDatetime.mk dt.year dt.month dt.day 0 0 0 0 true) := by
  cases dt with
  | mk y m d hh mi s u tzB =>
    have hsh := strptimeYbd_shape ys ms ds _ h2
    injection hsh with e1 e2 e3 e4 e5 e6 e7 e8
    subst e4
    subst e5
    subst e6
    subst e7
    simp [fetchDataUpdateDate, h1, h2]

/-- C3 witness: `Data  Update\t2026 Jan 2` inside surrounding text resolves
to 2026-01-02 at UTC midnight. -/
theorem resolver_match_ok_witness :
    reSearchDU (pstr "GCAT. Data  Update\t2026 Jan 2!") =
      some (pstr "2026", pstr "Jan", pstr "2") ∧
    strptimeYbd (pstr "2026") (pstr "Jan") (pstr "2") =
      some (PyDatetime.mk 2026 1 2 0 0 0 0 false) ∧
    fetchDataUpdateDate (pstr "GCAT. Data  Update\t2026 Jan 2!") =
      .ok (PyDatetime.mk 2026 1 2 0 0 0 0 true) :=
  ⟨by decide, by decide,
    resolver_match_ok (pstr "GCAT. Data  Update\t2026 Jan 2!")
      (pstr "2026") (pstr "Jan") (pstr "2")
      (PyDatetime.mk 2026 1 2 0 0 0 0 false) (by decide) (by decide)⟩

/-- C4 counterexample: the no-match failure and the bad-month failure
surface as different error kinds (`RuntimeError` vs the `ValueError` from
`strptime`), and an in-range month with an invalid day is a third failure
case, also a `ValueError`. -/
theorem resolver_error_kinds_counterexample :
    fetchDataUpdateDate (pstr "no match here") =
      .error PyErr.runtimeNoDate ∧
    fetchDataUpdateDate (pstr "Data Update 2026 Foo 2") =
      .error PyErr.valueErrorBadDate ∧
    fetchDataUpdateDate (pstr "Data Update 2026 Jan 0") =
      .error PyErr.valueErrorBadDate ∧
    PyErr.runtimeNoDate ≠ PyErr.valueErrorBadDate := by decide

/-- C4 (amended): the resolver fails with the `RuntimeError` kind exactly
when nothing in the document matches the pattern, and with the distinct
`ValueError` kind exactly when the matched groups fail date parsing (month
abbreviation not in the fixed English table, or an invalid day for the
matched month and year). -/
theorem resolver_failure_characterization (t : Str) :
    (fetchDataUpdateDate t = .error PyErr.runtimeNoDate ↔
      reSearchDU t = none) ∧
    (fetchDataUpdateDate t = .error PyErr.valueErrorBadDate ↔
      ∃ ys ms ds, reSearchDU t = some (ys, ms, ds) ∧
        strptimeYbd ys ms ds = none) := by
  rcases hs : reSearchDU t with _ | ⟨ys, ms, ds⟩
  · refine ⟨by simp [fetchDataUpdateDate, hs], ?_, ?_⟩
    · intro hf
      simp [fetchDataUpdateDate, hs] at hf
    · rintro ⟨ys, ms, ds, hsome, _⟩
      cases hsome
  · rcases hp : strptimeYbd ys ms ds with _ | dt
    · refine ⟨⟨?_, ?_⟩, ?_, ?_⟩
      · intro hf
        simp [fetchDataUpdateDate, hs, hp] at hf
      · intro hn
        cases hn
      · intro _
        exact ⟨ys, ms, ds, rfl, hp⟩
      · intro _
        simp [fetchDataUpdateDate, hs, hp]
    · refine ⟨⟨?_, ?_⟩, ?_, ?_⟩
      · intro hf
        simp [fetchDataUpdateDate, hs, hp] at hf
      · intro hn
        cases hn
      · intro hf
        simp [fetchDataUpdateDate, hs, hp] at hf
      · rintro ⟨ys2, ms2, ds2, hsome, hnone⟩
        have htup := Option.some.inj hsome
        injection htup with h1 h23
        injection h23 with h2 h3
        subst h1
        subst h2
        subst h3
        rw [hp] at hnone
        cases hnone

-- Validation of the embedded library primitives on concrete inputs whose
-- behaviour under CPython is documented or easily checked.

theorem model_check_splitlines :
    pySplitlines (pstr "a\r\nb\rc\nd\n") = [pstr "a", pstr "b", pstr "c", pstr "d"] := by
  decide

theorem model_check_decode :
    utf8DecodeReplace [0xE0, 0xA0, 0x41] = [replChar, 'A'] := by decide

theorem model_check_csv :
    csvParseLine (pstr "\"a\"b\tc") = [pstr "ab", pstr "c"] := by decide

theorem model_check_float :
    isPyFloat (pstr "+.5e-3") = true ∧ isPyFloat (pstr "1_000") = true ∧
    isPyFloat (pstr "1_.5") = false ∧ isPyFloat (pstr "NAN") = true ∧
    isPyFloat (pstr "-") = false ∧ isPyFloat (pstr "1e") = false := by decide

theorem model_check_clean :
    cleanTsvContent (utf8Encode (pstr "#id\tdistance\tname\n1\t12\talpha\n2\t-\tbeta\n# skip me\n3\t7.5\tgamma")) =
      some [[pstr "id", pstr "distance", pstr "name"],
            [pstr "1", pstr "12", pstr "alpha"],
            [pstr "2", [], pstr "beta"],
            [pstr "3", pstr "7.5", pstr "gamma"]] := by decide

theorem model_check_fetch :
    fetchDataUpdateDate (pstr "GCAT. Data  Update\t2026 JAN 2 (UTC)") =
      .ok (PyDatetime.mk 2026 1 2 0 0 0 0 true) := rfl

theorem model_check_fetch_lower :
    fetchDataUpdateDate (pstr "data update 2026 Jan 2") =
      .error PyErr.runtimeNoDate := rfl

theorem model_check_fetch_badmonth :
    fetchDataUpdateDate (pstr "Data Update 2026 Foo 2") =
      .error PyErr.valueErrorBadDate := rfl

theorem model_check_fetch_day123 :
    fetchDataUpdateDate (pstr "Data Update 2026 Jan 123") =
      .ok (PyDatetime.mk 2026 1 12 0 0 0 0 true) := rfl
